import Mathlib

/-!
Verification of the cloudify-puppet-plugin repository.

Shallow embedding of `puppet_plugin/manager.py` and
`puppet_plugin/retrying_lock.py`.  Pure computations (string building,
exit-code translation, URL resolution) are translated directly; stateful
code (the retrying file lock, the `run()` protocol) is modelled by explicit
state passing, with the outcomes of external effects (lock acquisition
attempts, the privileged execution of the generated run script) supplied
as parameters.
-/

/-- The single-quote character (codepoint 39), used by `quote_shell_arg`. -/
def squote : Char := Char.ofNat 39

/-- Python `s.startswith(p)`, computed on the character lists. -/
def strStartsWith (s p : String) : Bool := p.data.isPrefixOf s.data

/-- Python `s.endswith(p)`, computed on the character lists. -/
def strEndsWith (s p : String) : Bool := p.data.isSuffixOf s.data

/-- Embeds `os.path.join(a, b)` for two non-degenerate path components:
an absolute second component replaces the first, otherwise the parts are
joined with a single separator. -/
def pathJoin (a b : String) : String :=
  if strStartsWith b "/" then b
  else if strEndsWith a "/" || a = "" then a ++ b
  else a ++ "/" ++ b

/-- Embeds Python truthiness of an optional string value
(`None` and `""` are falsy). -/
def pyTruthyStr : Option String → Bool
  | none => false
  | some s => !s.isEmpty

/-- Embeds Python `s.replace("'", "'\"'\"'")` from `quote_shell_arg`
(manager.py line 53): every single quote is expanded to the five
characters quote, double-quote, quote, double-quote, quote. -/
def pyReplaceSquote (s : String) : String :=
  String.join (s.data.map (fun c => if c = squote then "\x27\"\x27\"\x27" else String.singleton c))

/-- Embeds `quote_shell_arg` (manager.py lines 52-53). -/
def quote_shell_arg (s : String) : String :=
  "\x27" ++ pyReplaceSquote s ++ "\x27"

/-! ## RetryingLock (retrying_lock.py) -/

/-- State of a `RetryingLock` handle: lock file path, configured retry
count and per-attempt timeout, and the `acquired` flag. -/
structure RetryingLock where
  path : String
  retries : Nat
  sleep : Nat
  acquired : Bool

/-- Embeds `RetryingLock.__init__` (retrying_lock.py lines 10-19):
the path is `<TMPDIR or /tmp>/<lock_name>` and `acquired` starts false. -/
def RetryingLock.init (tmpdirEnv : Option String) (lock_name : String)
    (retries sleep : Nat) : RetryingLock :=
  { path := pathJoin (tmpdirEnv.getD "/tmp") lock_name
    retries := retries
    sleep := sleep
    acquired := false }

/-- Embeds the acquisition loop of `RetryingLock.__enter__`
(retrying_lock.py lines 24-35).  `succeeds i` tells whether the `i`-th
call to `self.file.acquire(timeout=...)` succeeds (false = it raises
`lockfile.LockTimeout`).  Returns whether acquisition succeeded together
with the number of acquisition attempts made. -/
def enterAttempts (succeeds : Nat → Bool) : Nat → Nat → Bool × Nat
  | _, 0 => (false, 0)
  | i, fuel + 1 =>
    if succeeds i then (true, 1)
    else
      let r := enterAttempts succeeds (i + 1) fuel
      (r.1, r.2 + 1)

/-- Outcome of `RetryingLock.__enter__`: the raised error message (if
any), the resulting handle state, and the number of acquisition attempts
made. -/
structure EnterOutcome where
  err : Option String
  lock : RetryingLock
  attempts : Nat

/-- Embeds `RetryingLock.__enter__` (retrying_lock.py lines 21-36):
loop `for i in range(0, self.retries)`, on success set `acquired` and
return, after the loop raise
`RuntimeError("Failed to lock the file '<path>'.")`. -/
def RetryingLock.enter (l : RetryingLock) (succeeds : Nat → Bool) : EnterOutcome :=
  let r := enterAttempts succeeds 0 l.retries
  if r.1 then
    { err := none, lock := { l with acquired := true }, attempts := r.2 }
  else
    { err := some ("Failed to lock the file \x27" ++ l.path ++ "\x27."), lock := l, attempts := r.2 }

/-- Embeds `RetryingLock.__exit__` (retrying_lock.py lines 38-43).  The
exception information passed by the `with` statement is ignored by the
source, so it is an explicit (unused) argument here.  Returns the new
handle state and whether `self.file.release()` was performed. -/
def RetryingLock.exitScope (l : RetryingLock) (_excInfo : Option String) :
    RetryingLock × Bool :=
  if l.acquired = false then (l, false)
  else ({ l with acquired := false }, true)

/-! ## Environment normalization (manager.py lines 49, 360-366) -/

/-- Embeds the effect of `re.sub('[- .]', '_', e)` on one character:
hyphen, space and dot become underscore. -/
def normalizeEnvChar (c : Char) : Char :=
  if c = '-' ∨ c = ' ' ∨ c = '.' then '_' else c

/-- Embeds `re.sub('[- .]', '_', e)` (manager.py line 361). -/
def normalizeEnv (s : String) : String :=
  String.mk (s.data.map normalizeEnvChar)

/-- Membership in the character class `[a-z0-9]` of `PUPPET_ENV_RE`. -/
def isEnvChar (c : Char) : Bool :=
  ('a' ≤ c && c ≤ 'z') || ('0' ≤ c && c ≤ '9')

/-- Embeds `PUPPET_ENV_RE.match` for the regex `\A[a-z0-9]+\Z`
(manager.py line 49): nonempty and every character in `[a-z0-9]`. -/
def PUPPET_ENV_RE_match (s : String) : Bool :=
  !s.data.isEmpty && s.data.all isEnvChar

/-- Embeds `PuppetRunner.set_environment` (manager.py lines 360-366):
normalize, then reject unless the result matches `PUPPET_ENV_RE`. -/
def set_environment (e : String) : Except String String :=
  let env := normalizeEnv e
  if PUPPET_ENV_RE_match env then Except.ok env
  else
    Except.error
      ("puppet_config.environment must contain only alphanumeric characters, you gave \x27"
        ++ env ++ "\x27")

/-! ## Puppet tag regex (manager.py line 47) -/

/-- Membership in the leading character class `[a-z0-9_]` of `PUPPET_TAG_RE`. -/
def isTagStartChar (c : Char) : Bool :=
  ('a' ≤ c && c ≤ 'z') || ('0' ≤ c && c ≤ '9') || c = '_'

/-- Membership in the trailing character class `[a-z0-9_:.\-]` of `PUPPET_TAG_RE`. -/
def isTagChar (c : Char) : Bool :=
  isTagStartChar c || c = ':' || c = '.' || c = '-'

/-- Embeds `PUPPET_TAG_RE.match` for the regex `\A[a-z0-9_][a-z0-9_:.\-]*\Z`
(manager.py line 47). -/
def PUPPET_TAG_RE_match (s : String) : Bool :=
  match s.data with
  | [] => false
  | c :: cs => isTagStartChar c && cs.all isTagChar

/-! ## Module path and config template (manager.py lines 23-45, 425-428) -/

/-- Embeds `PUPPET_CONF_MODULE_PATH` (manager.py lines 40-45). -/
def PUPPET_CONF_MODULE_PATH : List String :=
  ["/etc/puppet/modules", "/usr/share/puppet/modules", "/opt/cloudify/puppet/modules"]

/-- Embeds `PuppetRunner.get_modules_path` (manager.py lines 425-428),
with `DIRS['local_repo']` (the expansion of `~/cloudify/puppet`) supplied
as `localRepo`. -/
def get_modules_path (localRepo : String) : String :=
  String.intercalate ":" (PUPPET_CONF_MODULE_PATH ++ [pathJoin localRepo "modules"])

/-- Embeds `PUPPET_CONF_TPL` (manager.py lines 23-38) with the five
format fields substituted. -/
def PUPPET_CONF_TPL (environment modulepath server certname node_name : String) : String :=
  "# This file was generated by Cloudify\n[main]\n    ssldir = /var/lib/puppet/ssl\n" ++
  ("    environment = " ++ environment ++ "\n") ++
  "    pluginsync = true\n    logdir = /var/log/puppet\n    vardir = /var/lib/puppet\n    classfile = $vardir/classes.txt\n    factpath = /opt/cloudify/puppet/facts:$vardir/lib/facter:$vardir/facts\n" ++
  ("    modulepath = " ++ modulepath ++ "\n") ++
  "\n[agent]\n" ++
  ("    server = " ++ server ++ "\n") ++
  ("    certname = " ++ certname ++ "\n") ++
  ("    node_name_value = " ++ node_name ++ "\n")

/-! ## Puppet configuration properties and runner selection -/

/-- The keys of `ctx.properties['puppet_config']` that the embedded code
reads for runner selection and agent configuration.  `none` models an
absent key. -/
structure PuppetProps where
  environment : Option String
  server : Option String
  node_name_prefix : Option String
  node_name_suffix : Option String

/-- The two runner variants of `PuppetRunner.get_runner_class`. -/
inductive RunnerKind
  | agent
  | standalone

/-- Embeds `PuppetRunner.get_runner_class` (manager.py lines 346-352):
the agent runner is selected iff the `server` key is present. -/
def get_runner_class (props : PuppetProps) : RunnerKind :=
  if (props.server).isSome then RunnerKind.agent else RunnerKind.standalone

/-- Embeds `PuppetAgentRunner.process_properties` (manager.py lines
433-437): require the `environment` key, then `set_environment`. -/
def agent_process_properties (props : PuppetProps) : Except String String :=
  match props.environment with
  | none => Except.error "puppet_config.environment is missing"
  | some e => set_environment e

/-! ## UTC timestamp (manager.py line 450) -/

/-- One decimal digit character: codepoint 48 plus `n % 10`. -/
def digitChar (n : Nat) : Char := Char.ofNat (48 + n % 10)

/-- Four-decimal-digit rendering, faithful to strftime `%Y` for years in
[1000, 9999]. -/
def fmt4 (n : Nat) : String :=
  String.mk [digitChar (n / 1000), digitChar (n / 100), digitChar (n / 10), digitChar n]

/-- Two-decimal-digit zero-padded rendering, faithful to strftime
`%m`/`%d`/`%H`/`%M` for values below 100. -/
def fmt2 (n : Nat) : String :=
  String.mk [digitChar (n / 10), digitChar n]

/-- The fields of `datetime.datetime.utcnow()` read by the code. -/
structure UTCTime where
  year : Nat
  month : Nat
  day : Nat
  hour : Nat
  minute : Nat

/-- Embeds `datetime.datetime.utcnow().strftime('%Y%m%d%H%M')`
(manager.py line 450). -/
def strftime_YmdHM (t : UTCTime) : String :=
  fmt4 t.year ++ fmt2 t.month ++ fmt2 t.day ++ fmt2 t.hour ++ fmt2 t.minute

/-! ## Agent runner configure (manager.py lines 442-466) -/

/-- Embeds the `node_name` computation of
`PuppetAgentRunner._get_config_file_contents` (manager.py lines 444-448):
`p.get('node_name_prefix', '') + ctx.node_id + p.get('node_name_suffix', '')`. -/
def agent_node_name (props : PuppetProps) (node_id : String) : String :=
  ( PuppetProps.node_name_prefix props).getD "" ++ node_id ++ (props.node_name_suffix).getD ""

/-- Embeds `PuppetAgentRunner._get_config_file_contents` (manager.py
lines 442-462), with the already-validated environment `env`, the
current UTC time and the local repo directory supplied as parameters. -/
def agent_config_file_contents (props : PuppetProps) (env : String) (node_id : String)
    (now : UTCTime) (localRepo : String) : String :=
  let node_name := agent_node_name props node_id
  let certname := strftime_YmdHM now ++ "-" ++ node_name
  PUPPET_CONF_TPL env (get_modules_path localRepo) ((props.server).getD "") certname node_name

/-- Composition of `PuppetAgentRunner.process_properties` (run at
construction time) and the rendering step of `PuppetAgentRunner.configure`
(manager.py lines 433-437 and 442-466): an error at either stage means no
configuration file is rendered. -/
def agent_configure_render (props : PuppetProps) (node_id : String) (now : UTCTime)
    (localRepo : String) : Except String String :=
  (agent_process_properties props).map fun env =>
    agent_config_file_contents props env node_id now localRepo

/-! ## Standalone runner command (manager.py lines 514-538) -/

/-- Embeds `PuppetStandaloneRunner.get_runner_cmd` (manager.py lines
514-538).  `environment` is `self.environment` (set only when the
`environment` key was given), `execute` / `manifest` are the arguments
stored by `run()`; Python truthiness decides each branch, and
`cmd_done` is the disjunction of the `execute` and `manifest` branches. -/
def standalone_get_runner_cmd (environment execute manifest : Option String)
    (localRepo : String) : Except String (List String) :=
  let cmd0 := ["apply", "--modulepath=" ++ get_modules_path localRepo]
  let cmd1 := if pyTruthyStr environment then cmd0 ++ ["--environment", environment.getD ""] else cmd0
  let cmd2 := if pyTruthyStr execute then cmd1 ++ ["--execute", quote_shell_arg (execute.getD "")] else cmd1
  let cmd3 := if pyTruthyStr manifest then cmd2 ++ [quote_shell_arg (pathJoin localRepo (manifest.getD ""))] else cmd2
  if pyTruthyStr execute || pyTruthyStr manifest then Except.ok cmd3
  else Except.error "Either \x27execute\x27 or \x27manifest\x27 must be specified. None are specified"

/-! ## Debian repo package URL (manager.py lines 278-292) -/

/-- The `platform.linux_distribution()` triple. -/
structure DistroInfo where
  name : String
  codename : String
  version : String

/-- Embeds the default URL template
`'http://apt.puppetlabs.com/puppetlabs-release-{0}.deb'.format(ver)`. -/
def defaultRepoUrl (ver : String) : String :=
  "http://apt.puppetlabs.com/puppetlabs-release-" ++ ver ++ ".deb"

/-- Embeds `PuppetDebianInstaller.get_repo_package_url` (manager.py lines
278-292).  `debRepos` is the mapping `self.props.get('repos', {}).get('deb', {})`
as an association list; `dict.get` yielding `None` and Python `or` are
modelled by the `match` on the lookup with an emptiness test. -/
def get_repo_package_url (d : DistroInfo) (debRepos : List (String × String)) :
    Except String String :=
  let verRes : Except String String :=
    if !d.version.isEmpty then Except.ok d.version
    else if strEndsWith d.codename "/sid" then Except.ok "sid"
    else Except.error "Fail to detect Linux distro version"
  verRes.bind fun ver =>
    Except.ok (match debRepos.lookup ver with
      | some u => if u.isEmpty then defaultRepoUrl ver else u
      | none => defaultRepoUrl ver)

/-! ## The run protocol (manager.py lines 368-423) -/

/-- Inputs to `PuppetRunner.run` past the `install()`/`configure()`
steps (which are modelled as having succeeded): the variant command from
`get_runner_cmd()`, the variant environment variables from
`get_run_env_vars()`, the operator facts `self.props.get('facts', {})`
as an association list over an arbitrary value type, the injected value
`_context_to_struct(ctx)` (with related-node data already merged when
`ctx.related` is set), the generated facts temp-file name, the `tags`
argument, and whether the privileged execution of the generated run
script succeeds. -/
structure RunInputs (α : Type) where
  runnerCmd : List String
  envVars : List (String × String)
  facts : List (String × α)
  cloudifyVal : α
  factsFileName : String
  tags : Option (List String)
  scriptSucceeds : Bool

/-- Embeds the base command list of `run()` (manager.py lines 387-393):
`["puppet"] + get_runner_cmd() + ["--detailed-exitcodes", "--logdest",
"console", "--logdest", "syslog"]`. -/
def run_base_cmd (runnerCmd : List String) : List String :=
  ["puppet"] ++ runnerCmd ++ ["--detailed-exitcodes", "--logdest", "console", "--logdest", "syslog"]

/-- Embeds the tags branch of `run()` (manager.py lines 395-396):
`if tags: cmd += ['--tags', ','.join(tags)]` (Python truthiness: `None`
and `[]` skip the branch). -/
def run_command_list (runnerCmd : List String) (tags : Option (List String)) : List String :=
  run_base_cmd runnerCmd ++
    (match tags with
      | some ts => if ts.isEmpty then [] else ["--tags", String.intercalate "," ts]
      | none => [])

/-- Embeds the `environ` string of `run()` (manager.py lines 400-403):
`"export {k}='{v}'\n"` per variable, concatenated. -/
def environString (envVars : List (String × String)) : String :=
  String.join (envVars.map fun kv => "export " ++ kv.1 ++ "=\x27" ++ kv.2 ++ "\x27\n")

/-- The exit-code translation tail of the generated run script
(manager.py lines 412-415). -/
def exitTranslationSnippet : String :=
  "echo Exit code: $e\nif [ $e -eq 1 ];then exit 1;fi\nif [ $(($e & 4)) -eq 4 ];then exit 4;fi\nexit 0\n"

/-- Embeds the run script contents written by `run()` (manager.py lines
405-416); `DIRS['local_custom_facts']` is the fixed path
`/opt/cloudify/puppet/facts`. -/
def runScriptContent (factsFileName environ cmd : String) : String :=
  ("#!/bin/bash -e\nexport FACTERLIB=/opt/cloudify/puppet/facts\nexport CLOUDIFY_FACTS_FILE="
    ++ factsFileName ++ "\n" ++ environ ++ "e=0\n" ++ cmd ++ " || e=$?\n")
  ++ exitTranslationSnippet

/-- Semantics of the exit-code translation lines of the run script
(manager.py lines 413-415): the script exits 1 when the captured code is
1, else 4 when bit 2 is set, else 0. -/
def exitCodeTranslate (e : Nat) : Nat :=
  if e = 1 then 1 else if e &&& 4 = 4 then 4 else 0

/-- Observable outcome of one `run()` invocation (past `install()` and
`configure()`): the raised error (if any), the facts bundle written to
the facts file, whether each temp file was written / removed, whether the
run script was executed, and the built command and script text. -/
structure RunOutcome (α : Type) where
  error : Option String
  bundle : Option (List (String × α))
  factsFileWritten : Bool
  scriptExecuted : Bool
  factsFileRemoved : Bool
  runFileRemoved : Bool
  cmd : Option String
  script : Option String

/-- Embeds `PuppetRunner.run` (manager.py lines 368-423) from the facts
bundle construction on: reject a reserved `cloudify` key before writing
anything; otherwise extend the facts with the `cloudify` entry, write the
facts file, build the command and the run script, execute it with sudo
(raising `SudoError` on nonzero exit), and remove the facts file only
after a successful execution.  No path removes the run script file. -/
def PuppetRunner.run {α : Type} (inp : RunInputs α) : RunOutcome α :=
  if (inp.facts.map Prod.fst).contains "cloudify" then
    { error := some "Puppet attributes must not contain \x27cloudify\x27"
      bundle := none
      factsFileWritten := false
      scriptExecuted := false
      factsFileRemoved := false
      runFileRemoved := false
      cmd := none
      script := none }
  else
    let bundle := inp.facts ++ [("cloudify", inp.cloudifyVal)]
    let cmd := String.intercalate " " (run_command_list inp.runnerCmd inp.tags)
    let script := runScriptContent inp.factsFileName (environString inp.envVars) cmd
    if inp.scriptSucceeds then
      { error := none
        bundle := some bundle
        factsFileWritten := true
        scriptExecuted := true
        factsFileRemoved := true
        runFileRemoved := false
        cmd := some cmd
        script := some script }
    else
      { error := some "SudoError"
        bundle := some bundle
        factsFileWritten := true
        scriptExecuted := true
        factsFileRemoved := false
        runFileRemoved := false
        cmd := some cmd
        script := some script }

/-! ## Helper lemmas -/

theorem enterAttempts_all_fail (succeeds : Nat → Bool) :
    ∀ (fuel i : Nat), (∀ j, j < fuel → succeeds (i + j) = false) →
      enterAttempts succeeds i fuel = (false, fuel) := by
  intro fuel
  induction fuel with
  | zero => intro i _; rfl
  | succ n ih =>
    intro i h
    have h0 : succeeds i = false := by simpa using h 0 (Nat.succ_pos n)
    have hrest : ∀ j, j < n → succeeds (i + 1 + j) = false := by
      intro j hj
      have e : i + 1 + j = i + (j + 1) := by omega
      rw [e]
      exact h (j + 1) (by omega)
    simp [enterAttempts, h0, ih (i + 1) hrest]

theorem enterAttempts_first_success (succeeds : Nat → Bool) :
    ∀ (k fuel i : Nat), k < fuel → succeeds (i + k) = true →
      (∀ j, j < k → succeeds (i + j) = false) →
      enterAttempts succeeds i fuel = (true, k + 1) := by
  intro k
  induction k with
  | zero =>
    intro fuel i hf hs _
    cases fuel with
    | zero => exact absurd hf (Nat.lt_irrefl 0)
    | succ m =>
      have hs0 : succeeds i = true := by simpa using hs
      simp [enterAttempts, hs0]
  | succ k ih =>
    intro fuel i hf hs hb
    cases fuel with
    | zero => exact absurd hf (Nat.not_lt_zero _)
    | succ m =>
      have h0 : succeeds i = false := by simpa using hb 0 (Nat.succ_pos k)
      have hrec : enterAttempts succeeds (i + 1) m = (true, k + 1) := by
        apply ih m (i + 1) (by omega)
        · have e : i + 1 + k = i + (k + 1) := by omega
          rw [e]; exact hs
        · intro j hj
          have e : i + 1 + j = i + (j + 1) := by omega
          rw [e]; exact hb (j + 1) (by omega)
      simp [enterAttempts, h0, hrec]

theorem intercalate_go_append (sep a b : String) :
    ∀ (l : List String) (acc : String),
      String.intercalate.go acc sep (l ++ [a, b]) =
        String.intercalate.go acc sep l ++ sep ++ a ++ sep ++ b := by
  intro l
  induction l with
  | nil => intro acc; rfl
  | cons x xs ih => intro acc; simp only [List.cons_append, String.intercalate.go]; exact ih _

theorem intercalate_append_two (sep a b : String) (l : List String) (h : l ≠ []) :
    String.intercalate sep (l ++ [a, b]) =
      String.intercalate sep l ++ sep ++ a ++ sep ++ b := by
  cases l with
  | nil => exact absurd rfl h
  | cons x xs =>
    simp only [List.cons_append, String.intercalate]
    exact intercalate_go_append sep a b xs x

/-! ## Claims -/

/-- C1: the exit-code translation embedded in the generated run script
maps the captured exit code `e` as follows: `e = 1` exits 1; otherwise
`e &&& 4 = 4` exits 4; otherwise 0.  Inputs 0 and 2 are success, inputs
1, 4, 5, 6 are failure; success happens exactly when `e` is neither 1
nor has bit 2 set; and every generated run script ends with the
translation snippet. -/
theorem claim_C1 :
    (∀ e : Nat, exitCodeTranslate e = 0 ↔ (e ≠ 1 ∧ e &&& 4 ≠ 4)) ∧
    (∀ e : Nat, e = 1 → exitCodeTranslate e = 1) ∧
    (∀ e : Nat, e ≠ 1 → e &&& 4 = 4 → exitCodeTranslate e = 4) ∧
    exitCodeTranslate 0 = 0 ∧ exitCodeTranslate 2 = 0 ∧
    exitCodeTranslate 1 = 1 ∧ exitCodeTranslate 4 = 4 ∧
    exitCodeTranslate 5 = 4 ∧ exitCodeTranslate 6 = 4 ∧
    (∀ f env c, ∃ p, runScriptContent f env c = p ++ exitTranslationSnippet) := by
  refine ⟨?_, ?_, ?_, by decide, by decide, by decide, by decide, by decide, by decide, ?_⟩
  · intro e
    unfold exitCodeTranslate
    split_ifs with h1 h2 <;> simp_all
  · intro e he
    simp [exitCodeTranslate, he]
  · intro e h1 h2
    simp [exitCodeTranslate, h1, h2]
  · intro f env c
    exact ⟨_, rfl⟩

/-- C1 witness: concrete instances of the hypotheses of `claim_C1`. -/
theorem claim_C1_witness : exitCodeTranslate 6 = 4 ∧ exitCodeTranslate 2 = 0 :=
  ⟨claim_C1.2.2.1 6 (by decide) (by decide),
   (claim_C1.1 2).mpr ⟨by decide, by decide⟩⟩

/-- C2: with `max_retries = N` and every acquisition attempt timing out,
entering the lock makes exactly `N` attempts and then fails with an error
naming the lock file path, leaving `acquired` false; if attempt `k` is
the first to succeed, entering returns after exactly `k + 1` attempts
with `acquired` true and no error. -/
theorem claim_C2 (l : RetryingLock) (succeeds : Nat → Bool) (hinit : l.acquired = false) :
    ((∀ i, i < l.retries → succeeds i = false) →
      (l.enter succeeds).attempts = l.retries ∧
      (l.enter succeeds).err =
        some ("Failed to lock the file \x27" ++ l.path ++ "\x27.") ∧
      ((l.enter succeeds).lock).acquired = false) ∧
    (∀ k, k < l.retries → succeeds k = true → (∀ j, j < k → succeeds j = false) →
      (l.enter succeeds).err = none ∧
      ((l.enter succeeds).lock).acquired = true ∧
      (l.enter succeeds).attempts = k + 1) := by
  constructor
  · intro h
    have hA : enterAttempts succeeds 0 l.retries = (false, l.retries) :=
      enterAttempts_all_fail succeeds l.retries 0 (fun j hj => by simpa using h j hj)
    simp [RetryingLock.enter, hA, hinit]
  · intro k hk hs hb
    have hA : enterAttempts succeeds 0 l.retries = (true, k + 1) :=
      enterAttempts_first_success succeeds k l.retries 0 hk (by simpa using hs)
        (fun j hj => by simpa using hb j hj)
    simp [RetryingLock.enter, hA]

/-- C2 witness: the install lock spec (30 retries) with every attempt
timing out makes 30 attempts and fails naming `/tmp/puppet-install.lock`;
with the third attempt succeeding it acquires after 3 attempts. -/
theorem claim_C2_witness :
    (((RetryingLock.init none "puppet-install.lock" 30 10).enter (fun _ => false)).attempts = 30 ∧
     ((RetryingLock.init none "puppet-install.lock" 30 10).enter (fun _ => false)).err =
       some ("Failed to lock the file \x27" ++
         (RetryingLock.init none "puppet-install.lock" 30 10).path ++ "\x27.") ∧
     (((RetryingLock.init none "puppet-install.lock" 30 10).enter (fun _ => false)).lock).acquired
       = false) ∧
    (((RetryingLock.init none "puppet-config.lock" 30 10).enter (fun i => decide (i = 2))).err
       = none ∧
     (((RetryingLock.init none "puppet-config.lock" 30 10).enter
         (fun i => decide (i = 2))).lock).acquired = true ∧
     ((RetryingLock.init none "puppet-config.lock" 30 10).enter
         (fun i => decide (i = 2))).attempts = 3) :=
  ⟨(claim_C2 _ _ rfl).1 (fun _ _ => rfl),
   (claim_C2 _ _ rfl).2 2 (by decide) (by decide) (by decide)⟩

/-- C3: exiting an unacquired lock scope is a no-op (no release, no
error, state unchanged); exiting an acquired scope always releases and
clears the `acquired` flag; and the outcome does not depend on whether
the guarded body raised an exception. -/
theorem claim_C3 (l : RetryingLock) (exc : Option String) :
    (l.acquired = false → l.exitScope exc = (l, false)) ∧
    (l.acquired = true →
      (l.exitScope exc).2 = true ∧
      ((l.exitScope exc).1).acquired = false ∧
      (l.exitScope exc).1 = { l with acquired := false }) ∧
    (∀ exc2, l.exitScope exc = l.exitScope exc2) := by
  refine ⟨?_, ?_, fun _ => rfl⟩
  · intro h
    simp [RetryingLock.exitScope, h]
  · intro h
    simp [RetryingLock.exitScope, h]

/-- C3 witness: a fresh (unacquired) handle exits as a no-op, and an
acquired handle releases even when the body raised. -/
theorem claim_C3_witness :
    (RetryingLock.init none "puppet-install.lock" 30 10).exitScope none =
      (RetryingLock.init none "puppet-install.lock" 30 10, false) ∧
    (({ path := "/tmp/puppet-config.lock", retries := 30, sleep := 10, acquired := true } :
        RetryingLock).exitScope (some "body raised")).2 = true ∧
    ((({ path := "/tmp/puppet-config.lock", retries := 30, sleep := 10, acquired := true } :
        RetryingLock).exitScope (some "body raised")).1).acquired = false :=
  ⟨(claim_C3 _ none).1 rfl,
   ((claim_C3 _ (some "body raised")).2.1 rfl).1,
   ((claim_C3 _ (some "body raised")).2.1 rfl).2.1⟩


/-- C4: environment normalization turns every hyphen, dot and space into
an underscore and leaves other characters unchanged; the configuration is
accepted exactly when the normalized result matches `\A[a-z0-9]+\Z`
(accepted input yields the normalized value, otherwise a parameter
error); and normalization is idempotent. -/
theorem claim_C4 :
    (∀ s : String, (normalizeEnv s).data = s.data.map normalizeEnvChar) ∧
    (normalizeEnvChar '-' = '_' ∧ normalizeEnvChar '.' = '_' ∧ normalizeEnvChar ' ' = '_') ∧
    (∀ c : Char, c ≠ '-' → c ≠ '.' → c ≠ ' ' → normalizeEnvChar c = c) ∧
    (∀ s : String, normalizeEnv (normalizeEnv s) = normalizeEnv s) ∧
    (∀ s : String,
      set_environment s = Except.ok (normalizeEnv s) ∨
      set_environment s = Except.error
        ("puppet_config.environment must contain only alphanumeric characters, you gave \x27"
          ++ normalizeEnv s ++ "\x27")) ∧
    (∀ s : String,
      (∃ v, set_environment s = Except.ok v) ↔ PUPPET_ENV_RE_match (normalizeEnv s) = true) := by
  have hff : ∀ c, normalizeEnvChar (normalizeEnvChar c) = normalizeEnvChar c := by
    intro c
    by_cases h : c = '-' ∨ c = ' ' ∨ c = '.'
    · simp +decide [normalizeEnvChar, h]
    · simp [normalizeEnvChar, h]
  refine ⟨fun _ => rfl, ⟨by decide, by decide, by decide⟩, ?_, ?_, ?_, ?_⟩
  · intro c h1 h2 h3
    simp [normalizeEnvChar, h1, h2, h3]
  · intro s
    show String.mk ((s.data.map normalizeEnvChar).map normalizeEnvChar) = _
    rw [List.map_map]
    exact congrArg String.mk (List.map_congr_left (fun c _ => hff c))
  · intro s
    simp only [set_environment]
    split_ifs with h
    · exact Or.inl rfl
    · exact Or.inr rfl
  · intro s
    simp only [set_environment]
    split_ifs with h
    · simpa using h
    · simpa using h

/-- C4 witness: concrete instances of the hypotheses of `claim_C4`:
the character `x` is not rewritten, and `prod1` is accepted. -/
theorem claim_C4_witness :
    normalizeEnvChar 'x' = 'x' ∧
    ((∃ v, set_environment "prod1" = Except.ok v) ↔
      PUPPET_ENV_RE_match (normalizeEnv "prod1") = true) :=
  ⟨claim_C4.2.2.1 'x' (by decide) (by decide) (by decide),
   claim_C4.2.2.2.2.2 "prod1"⟩

/-- Concrete run inputs whose operator facts already contain the
reserved `cloudify` key. -/
def runInputsReserved : RunInputs String :=
  { runnerCmd := ["agent", "--onetime", "--no-daemonize"]
    envVars := []
    facts := [("cloudify", "operator value")]
    cloudifyVal := "ctx"
    factsFileName := "/tmp/puppet.web.3.facts_in.json"
    tags := none
    scriptSucceeds := true }

/-- Concrete run inputs with an unreserved facts mapping and a
successful script execution. -/
def runInputsPlain : RunInputs String :=
  { runnerCmd := ["agent", "--onetime", "--no-daemonize"]
    envVars := []
    facts := [("role", "web")]
    cloudifyVal := "ctx"
    factsFileName := "/tmp/puppet.web.3.facts_in.json"
    tags := none
    scriptSucceeds := true }

/-- C6: `run()` fails before writing the facts file or executing the
agent whenever the operator facts already contain the reserved key
`cloudify`; otherwise the bundle is the operator facts extended with a
`cloudify` entry holding the workflow context, and the facts file is
written. -/
theorem claim_C6 {α : Type} (inp : RunInputs α) :
    (((inp.facts).map Prod.fst).contains "cloudify" = true →
      (PuppetRunner.run inp).error =
        some "Puppet attributes must not contain \x27cloudify\x27" ∧
      (PuppetRunner.run inp).factsFileWritten = false ∧
      (PuppetRunner.run inp).scriptExecuted = false ∧
      (PuppetRunner.run inp).bundle = none) ∧
    (((inp.facts).map Prod.fst).contains "cloudify" = false →
      (PuppetRunner.run inp).bundle = some (inp.facts ++ [("cloudify", inp.cloudifyVal)]) ∧
      (PuppetRunner.run inp).factsFileWritten = true) := by
  constructor
  · intro h
    unfold PuppetRunner.run
    rw [if_pos h]
    exact ⟨rfl, rfl, rfl, rfl⟩
  · intro h
    unfold PuppetRunner.run
    rw [if_neg (by simp only [h]; decide)]
    by_cases hs : inp.scriptSucceeds = true
    · rw [if_pos hs]
      exact ⟨rfl, rfl⟩
    · rw [if_neg hs]
      exact ⟨rfl, rfl⟩

/-- C6 witness: the reserved key is rejected without writing anything,
and an unreserved mapping is extended with the `cloudify` context
entry. -/
theorem claim_C6_witness :
    ((PuppetRunner.run runInputsReserved).error =
        some "Puppet attributes must not contain \x27cloudify\x27" ∧
      (PuppetRunner.run runInputsReserved).factsFileWritten = false ∧
      (PuppetRunner.run runInputsReserved).scriptExecuted = false ∧
      (PuppetRunner.run runInputsReserved).bundle = none) ∧
    ((PuppetRunner.run runInputsPlain).bundle =
        some [("role", "web"), ("cloudify", "ctx")] ∧
      (PuppetRunner.run runInputsPlain).factsFileWritten = true) :=
  ⟨(claim_C6 runInputsReserved).1 (by decide),
   (claim_C6 runInputsPlain).2 (by decide)⟩

/-- C9 counterexample: a run that completes normally (no error raised)
removes the facts file but does **not** remove the generated run script,
contradicting the claim that both temporary files are removed on normal
completion. -/
theorem claim_C9_counterexample :
    (PuppetRunner.run runInputsPlain).error = none ∧
    (PuppetRunner.run runInputsPlain).factsFileRemoved = true ∧
    (PuppetRunner.run runInputsPlain).runFileRemoved = false := by
  exact ⟨rfl, rfl, rfl⟩

/-- C9 (amended): on normal completion of `run()` the facts JSON file is
removed but the generated run script is left in place; on failure of the
executed script both files are left in place. -/
theorem claim_C9 {α : Type} (inp : RunInputs α)
    (hno : ((inp.facts).map Prod.fst).contains "cloudify" = false) :
    (inp.scriptSucceeds = true →
      (PuppetRunner.run inp).error = none ∧
      (PuppetRunner.run inp).factsFileWritten = true ∧
      (PuppetRunner.run inp).factsFileRemoved = true ∧
      (PuppetRunner.run inp).runFileRemoved = false) ∧
    (inp.scriptSucceeds = false →
      (PuppetRunner.run inp).error = some "SudoError" ∧
      (PuppetRunner.run inp).factsFileWritten = true ∧
      (PuppetRunner.run inp).factsFileRemoved = false ∧
      (PuppetRunner.run inp).runFileRemoved = false) := by
  constructor
  · intro hs
    unfold PuppetRunner.run
    rw [if_neg (by simp only [hno]; decide), if_pos hs]
    exact ⟨rfl, rfl, rfl, rfl⟩
  · intro hs
    unfold PuppetRunner.run
    rw [if_neg (by simp only [hno]; decide), if_neg (by simp only [hs]; decide)]
    exact ⟨rfl, rfl, rfl, rfl⟩

/-- Concrete run inputs whose generated run script exits nonzero under
sudo. -/
def runInputsFailing : RunInputs String :=
  { runnerCmd := ["agent", "--onetime", "--no-daemonize"]
    envVars := []
    facts := [("role", "web")]
    cloudifyVal := "ctx"
    factsFileName := "/tmp/puppet.web.3.facts_in.json"
    tags := none
    scriptSucceeds := false }

/-- C9 witness: concrete instances of both branches of `claim_C9`. -/
theorem claim_C9_witness :
    ((PuppetRunner.run runInputsPlain).error = none ∧
      (PuppetRunner.run runInputsPlain).factsFileWritten = true ∧
      (PuppetRunner.run runInputsPlain).factsFileRemoved = true ∧
      (PuppetRunner.run runInputsPlain).runFileRemoved = false) ∧
    ((PuppetRunner.run runInputsFailing).error = some "SudoError" ∧
      (PuppetRunner.run runInputsFailing).factsFileWritten = true ∧
      (PuppetRunner.run runInputsFailing).factsFileRemoved = false ∧
      (PuppetRunner.run runInputsFailing).runFileRemoved = false) :=
  ⟨(claim_C9 runInputsPlain (by decide)).1 rfl,
   (claim_C9 runInputsFailing (by decide)).2 rfl⟩

/-- C10: for every non-empty tags list, the agent command is the base
command followed by `--tags` and the comma-join of the tags exactly as
given — no check against `PUPPET_TAG_RE` and no shell quoting is applied
to them — and `run()` raises no tag-related error (the only possible
error past the facts check comes from the script execution itself). -/
theorem claim_C10 {α : Type} (inp : RunInputs α) (ts : List String)
    (h1 : inp.tags = some ts) (h2 : ts ≠ [])
    (hno : ((inp.facts).map Prod.fst).contains "cloudify" = false) :
    run_command_list inp.runnerCmd inp.tags =
      run_base_cmd inp.runnerCmd ++ ["--tags", String.intercalate "," ts] ∧
    (PuppetRunner.run inp).cmd =
      some (String.intercalate " " (run_base_cmd inp.runnerCmd) ++ " " ++ "--tags" ++ " " ++
        String.intercalate "," ts) ∧
    (PuppetRunner.run inp).error =
      (if inp.scriptSucceeds = true then none else some "SudoError") := by
  have hts : ts.isEmpty = false := by
    cases ts with
    | nil => exact absurd rfl h2
    | cons a l => rfl
  have hlist : run_command_list inp.runnerCmd inp.tags =
      run_base_cmd inp.runnerCmd ++ ["--tags", String.intercalate "," ts] := by
    unfold run_command_list
    rw [h1]
    simp [hts]
  have hne : run_base_cmd inp.runnerCmd ≠ [] := by simp [run_base_cmd]
  have hcmd : String.intercalate " " (run_command_list inp.runnerCmd inp.tags) =
      String.intercalate " " (run_base_cmd inp.runnerCmd) ++ " " ++ "--tags" ++ " " ++
        String.intercalate "," ts := by
    rw [hlist]
    exact intercalate_append_two " " "--tags" _ _ hne
  refine ⟨hlist, ?_, ?_⟩
  · unfold PuppetRunner.run
    rw [if_neg (by simp only [hno]; decide)]
    by_cases hs : inp.scriptSucceeds = true
    · rw [if_pos hs]
      exact congrArg some hcmd
    · rw [if_neg hs]
      exact congrArg some hcmd
  · unfold PuppetRunner.run
    rw [if_neg (by simp only [hno]; decide)]
    by_cases hs : inp.scriptSucceeds = true
    · rw [if_pos hs, if_pos hs]
    · rw [if_neg hs, if_neg hs]

/-- Concrete run inputs whose tags list contains a tag that violates
`PUPPET_TAG_RE` (uppercase, space, semicolon). -/
def runInputsTagged : RunInputs String :=
  { runnerCmd := ["agent", "--onetime", "--no-daemonize"]
    envVars := []
    facts := [("role", "web")]
    cloudifyVal := "ctx"
    factsFileName := "/tmp/puppet.web.3.facts_in.json"
    tags := some ["Bad Tag;not quoted", "web"]
    scriptSucceeds := true }

/-- C10 witness: a tag rejected by `PUPPET_TAG_RE` is still interpolated
verbatim into the command. -/
theorem claim_C10_witness :
    PUPPET_TAG_RE_match "Bad Tag;not quoted" = false ∧
    (run_command_list runInputsTagged.runnerCmd runInputsTagged.tags =
      run_base_cmd runInputsTagged.runnerCmd ++
        ["--tags", String.intercalate "," ["Bad Tag;not quoted", "web"]] ∧
    (PuppetRunner.run runInputsTagged).cmd =
      some (String.intercalate " " (run_base_cmd runInputsTagged.runnerCmd) ++ " " ++
        "--tags" ++ " " ++ String.intercalate "," ["Bad Tag;not quoted", "web"]) ∧
    (PuppetRunner.run runInputsTagged).error =
      (if runInputsTagged.scriptSucceeds = true then none else some "SudoError")) :=
  ⟨by decide, claim_C10 runInputsTagged ["Bad Tag;not quoted", "web"] rfl (by decide) (by decide)⟩

/-- C7: with a non-empty `execute` text and no manifest, the standalone
command is `apply --modulepath=<path>`, plus `--environment <env>` when
an environment is set, plus `--execute` followed by the shell-quoted
text — and nothing else (in particular no manifest argument); with both
`execute` and `manifest` unset, command building fails with the
parameter error. -/
theorem claim_C7 (env : Option String) (e : String) (he : e ≠ "") (localRepo : String) :
    standalone_get_runner_cmd env (some e) none localRepo =
      Except.ok ((["apply", "--modulepath=" ++ get_modules_path localRepo] ++
        (if pyTruthyStr env then ["--environment", env.getD ""] else [])) ++
        ["--execute", quote_shell_arg e]) ∧
    quote_shell_arg e = "\x27" ++ pyReplaceSquote e ++ "\x27" ∧
    (∀ env2 repo2, standalone_get_runner_cmd env2 none none repo2 =
      Except.error "Either \x27execute\x27 or \x27manifest\x27 must be specified. None are specified") := by
  have h1 : e.isEmpty = false := by
    cases h : e.isEmpty with
    | false => rfl
    | true => exact absurd ((String.isEmpty_iff e).mp h) he
  have he2 : pyTruthyStr (some e) = true := by simp [pyTruthyStr, h1]
  have hnone : pyTruthyStr (none : Option String) = false := rfl
  refine ⟨?_, rfl, ?_⟩
  · by_cases henv : pyTruthyStr env = true
    · simp [standalone_get_runner_cmd, he2, hnone, henv]
    · simp [standalone_get_runner_cmd, he2, hnone, henv]
  · intro env2 repo2
    unfold standalone_get_runner_cmd
    rfl

/-- C7 witness: the execute text notify-brace-quote-x-quote-colon-brace is
shell-quoted with the quote-doublequote idiom and no manifest argument
appears; with neither execute nor manifest the parameter error is
raised. -/
theorem claim_C7_witness :
    standalone_get_runner_cmd none (some "notify\x7b\x27x\x27:\x7d") none "/root/cloudify/puppet" =
      Except.ok ((["apply", "--modulepath=" ++ get_modules_path "/root/cloudify/puppet"] ++
        (if pyTruthyStr none then ["--environment", (none : Option String).getD ""] else [])) ++
        ["--execute", quote_shell_arg "notify\x7b\x27x\x27:\x7d"]) ∧
    quote_shell_arg "notify\x7b\x27x\x27:\x7d" =
      "\x27notify\x7b\x27\"\x27\"\x27x\x27\"\x27\"\x27:\x7d\x27" ∧
    standalone_get_runner_cmd none none none "/root/cloudify/puppet" =
      Except.error "Either \x27execute\x27 or \x27manifest\x27 must be specified. None are specified" :=
  ⟨(claim_C7 none "notify\x7b\x27x\x27:\x7d" (by decide) "/root/cloudify/puppet").1,
   by decide,
   (claim_C7 none "x" (by decide) "/root/cloudify/puppet").2.2 none "/root/cloudify/puppet"⟩

/-- C8: Debian repo-package URL resolution: Ubuntu precise 12.04 with no
override yields the default puppetlabs URL for 12.04; a non-empty
override entry for 12.04 is returned instead; an empty numeric version
with a codename ending in `/sid` resolves as version `sid`; and any
other empty-version case raises the distro-detection error. -/
theorem claim_C8 :
    get_repo_package_url { name := "Ubuntu", codename := "precise", version := "12.04" } [] =
      Except.ok "http://apt.puppetlabs.com/puppetlabs-release-12.04.deb" ∧
    (∀ u, u ≠ "" →
      get_repo_package_url { name := "Ubuntu", codename := "precise", version := "12.04" }
        [("12.04", u)] = Except.ok u) ∧
    (∀ d : DistroInfo, d.version = "" → strEndsWith d.codename "/sid" = true →
      get_repo_package_url d [] =
        Except.ok "http://apt.puppetlabs.com/puppetlabs-release-sid.deb") ∧
    (∀ (d : DistroInfo) (repos : List (String × String)),
      d.version = "" → strEndsWith d.codename "/sid" = false →
      get_repo_package_url d repos = Except.error "Fail to detect Linux distro version") := by
  refine ⟨rfl, ?_, ?_, ?_⟩
  · intro u hu
    have h1 : u.isEmpty = false := by
      cases h : u.isEmpty with
      | false => rfl
      | true => exact absurd ((String.isEmpty_iff u).mp h) hu
    show Except.ok (if u.isEmpty = true then defaultRepoUrl "12.04" else u) = Except.ok u
    rw [h1]
    rfl
  · intro d h1 h2
    unfold get_repo_package_url
    rw [h1, h2]
    rfl
  · intro d repos h1 h2
    unfold get_repo_package_url
    rw [h1, h2]
    rfl

/-- C8 witness: concrete instances of the hypotheses of `claim_C8`: an
override URL, a Debian-unstable style codename, and an undetectable
distro. -/
theorem claim_C8_witness :
    get_repo_package_url { name := "Ubuntu", codename := "precise", version := "12.04" }
      [("12.04", "http://mirror.example/puppetlabs.deb")] =
      Except.ok "http://mirror.example/puppetlabs.deb" ∧
    get_repo_package_url { name := "Debian", codename := "jessie/sid", version := "" } [] =
      Except.ok "http://apt.puppetlabs.com/puppetlabs-release-sid.deb" ∧
    get_repo_package_url { name := "SomeOS", codename := "mystery", version := "" } [] =
      Except.error "Fail to detect Linux distro version" :=
  ⟨claim_C8.2.1 "http://mirror.example/puppetlabs.deb" (by decide),
   claim_C8.2.2.1 { name := "Debian", codename := "jessie/sid", version := "" } rfl (by decide),
   claim_C8.2.2.2 { name := "SomeOS", codename := "mystery", version := "" } [] rfl (by decide)⟩

theorem digitChar_isDigit (n : Nat) : (digitChar n).isDigit = true := by
  have hlt : n % 10 < 10 := Nat.mod_lt _ (by decide)
  unfold digitChar
  set m := n % 10 with hm
  interval_cases m <;> decide

theorem strftime_YmdHM_length (t : UTCTime) : (strftime_YmdHM t).length = 12 := rfl

theorem strftime_YmdHM_digits (t : UTCTime) :
    (strftime_YmdHM t).data.all Char.isDigit = true := by
  show List.all [digitChar (t.year / 1000), digitChar (t.year / 100), digitChar (t.year / 10),
    digitChar t.year, digitChar (t.month / 10), digitChar t.month, digitChar (t.day / 10),
    digitChar t.day, digitChar (t.hour / 10), digitChar t.hour, digitChar (t.minute / 10),
    digitChar t.minute] Char.isDigit = true
  simp [digitChar_isDigit]

/-- C5 counterexample: with `environment = "Prod-1"` the orchestrator is
rejected at property-processing time (`Prod_1` does not match
`\A[a-z0-9]+\Z`), so no configuration file is rendered at all. -/
theorem claim_C5_counterexample :
    agent_configure_render
      { environment := some "Prod-1", server := some "puppetmaster.example",
        node_name_prefix := none, node_name_suffix := none } "web-3"
      { year := 2014, month := 1, day := 1, hour := 0, minute := 0 } "/root/cloudify/puppet" =
      Except.error
        "puppet_config.environment must contain only alphanumeric characters, you gave \x27Prod_1\x27" := by
  rfl

/-- C5 (amended): `"Prod-1"` is rejected (see the counterexample), so
the scenario holds for a valid environment value such as `"prod1"`: the
orchestrator with `puppet_config = {environment: "prod1", server:
"puppetmaster.example"}` on node id `web-3` selects the agent runner and
renders a configuration containing the line `environment = prod1` and a
certname consisting of the 12-digit UTC timestamp (YYYYMMDDHHMM)
followed by `-web-3`.  The bounds on the time fields delimit the range
on which the timestamp embedding is faithful to strftime. -/
theorem claim_C5 (now : UTCTime) (hy1 : 1000 ≤ now.year) (hy2 : now.year < 10000)
    (hmo : now.month < 100) (hd : now.day < 100) (hh : now.hour < 100)
    (hmin : now.minute < 100) (localRepo : String) :
    get_runner_class
      { environment := some "prod1", server := some "puppetmaster.example",
        node_name_prefix := none, node_name_suffix := none } = RunnerKind.agent ∧
    agent_configure_render
      { environment := some "prod1", server := some "puppetmaster.example",
        node_name_prefix := none, node_name_suffix := none } "web-3" now localRepo =
      Except.ok (PUPPET_CONF_TPL "prod1" (get_modules_path localRepo) "puppetmaster.example"
        (strftime_YmdHM now ++ "-" ++ "web-3") "web-3") ∧
    (∃ pre post,
      PUPPET_CONF_TPL "prod1" (get_modules_path localRepo) "puppetmaster.example"
        (strftime_YmdHM now ++ "-" ++ "web-3") "web-3" =
        pre ++ "    environment = prod1\n" ++ post) ∧
    (∃ pre post,
      PUPPET_CONF_TPL "prod1" (get_modules_path localRepo) "puppetmaster.example"
        (strftime_YmdHM now ++ "-" ++ "web-3") "web-3" =
        pre ++ ("    certname = " ++ (strftime_YmdHM now ++ "-" ++ "web-3") ++ "\n") ++ post) ∧
    (strftime_YmdHM now).length = 12 ∧
    (strftime_YmdHM now).data.all Char.isDigit = true := by
  refine ⟨rfl, rfl, ?_, ?_, strftime_YmdHM_length now, strftime_YmdHM_digits now⟩
  · refine ⟨"# This file was generated by Cloudify\n[main]\n    ssldir = /var/lib/puppet/ssl\n",
      "    pluginsync = true\n    logdir = /var/log/puppet\n    vardir = /var/lib/puppet\n    classfile = $vardir/classes.txt\n    factpath = /opt/cloudify/puppet/facts:$vardir/lib/facter:$vardir/facts\n" ++
        ("    modulepath = " ++ get_modules_path localRepo ++ "\n") ++
        "\n[agent]\n" ++
        ("    server = " ++ "puppetmaster.example" ++ "\n") ++
        ("    certname = " ++ (strftime_YmdHM now ++ "-" ++ "web-3") ++ "\n") ++
        ("    node_name_value = " ++ "web-3" ++ "\n"), ?_⟩
    rfl
  · refine ⟨"# This file was generated by Cloudify\n[main]\n    ssldir = /var/lib/puppet/ssl\n" ++
        ("    environment = " ++ "prod1" ++ "\n") ++
        "    pluginsync = true\n    logdir = /var/log/puppet\n    vardir = /var/lib/puppet\n    classfile = $vardir/classes.txt\n    factpath = /opt/cloudify/puppet/facts:$vardir/lib/facter:$vardir/facts\n" ++
        ("    modulepath = " ++ get_modules_path localRepo ++ "\n") ++
        "\n[agent]\n" ++
        ("    server = " ++ "puppetmaster.example" ++ "\n"),
      "    node_name_value = " ++ "web-3" ++ "\n", ?_⟩
    rfl

/-- C5 witness: the amended scenario at the concrete UTC time
2014-05-07 09:30 with the local repo at `/root/cloudify/puppet`. -/
theorem claim_C5_witness :
    get_runner_class
      { environment := some "prod1", server := some "puppetmaster.example",
        node_name_prefix := none, node_name_suffix := none } = RunnerKind.agent ∧
    agent_configure_render
      { environment := some "prod1", server := some "puppetmaster.example",
        node_name_prefix := none, node_name_suffix := none } "web-3"
      { year := 2014, month := 5, day := 7, hour := 9, minute := 30 } "/root/cloudify/puppet" =
      Except.ok (PUPPET_CONF_TPL "prod1" (get_modules_path "/root/cloudify/puppet")
        "puppetmaster.example"
        (strftime_YmdHM { year := 2014, month := 5, day := 7, hour := 9, minute := 30 } ++
          "-" ++ "web-3") "web-3") ∧
    (∃ pre post,
      PUPPET_CONF_TPL "prod1" (get_modules_path "/root/cloudify/puppet") "puppetmaster.example"
        (strftime_YmdHM { year := 2014, month := 5, day := 7, hour := 9, minute := 30 } ++
          "-" ++ "web-3") "web-3" =
        pre ++ "    environment = prod1\n" ++ post) ∧
    (∃ pre post,
      PUPPET_CONF_TPL "prod1" (get_modules_path "/root/cloudify/puppet") "puppetmaster.example"
        (strftime_YmdHM { year := 2014, month := 5, day := 7, hour := 9, minute := 30 } ++
          "-" ++ "web-3") "web-3" =
        pre ++ ("    certname = " ++
          (strftime_YmdHM { year := 2014, month := 5, day := 7, hour := 9, minute := 30 } ++
            "-" ++ "web-3") ++ "\n") ++ post) ∧
    (strftime_YmdHM { year := 2014, month := 5, day := 7, hour := 9, minute := 30 }).length
      = 12 ∧
    (strftime_YmdHM
        { year := 2014, month := 5, day := 7, hour := 9, minute := 30 }).data.all Char.isDigit
      = true :=
  claim_C5 { year := 2014, month := 5, day := 7, hour := 9, minute := 30 }
    (by decide) (by decide) (by decide) (by decide) (by decide) (by decide)
    "/root/cloudify/puppet"
